import Mathlib

/-!
Verification development for the synthetic load generator (`src/app.py`).

The program issues a fixed list of HTTP calls per cycle, classifies each
call into a structured result record, tracks a single `logged_in` boolean,
and re-authenticates at the start of a cycle when not logged in.

Shallow embedding conventions:
- The HTTP transport is environmental: each call receives an `HttpOutcome`
  (timeout, exception with a message, or a completed response with a
  status code), exactly the cases distinguished by the `try` and `except`
  clauses in the source.
- Python exceptions are modelled by `Except PyExc`: raising is `.error`,
  an `except` clause is a match on the error.  `PyExc.timeout` models
  `requests.exceptions.Timeout`; `PyExc.other msg` models any other
  `Exception` with `str(e) = msg`.  (`BaseException` interrupts such as
  `KeyboardInterrupt` are outside this model; the spec treats them as the
  top-level loop boundary.)
- Wall-clock measurement `(time.time() - start_time) * 1000` is an input
  `elapsedMs : ℚ`; `round(x, 2)` is `round2`.
- Python dicts are association lists; a payload value is either a plain
  integer or a zero-argument callable (`PyVal`).
- Sleeps (inter-call jitter, inter-cycle interval) have no effect on the
  data computed and are elided.
-/

/-- A Python value stored in a payload dict: a plain integer or a
zero-argument callable (the dynamic score generator). -/
inductive PyVal where
  | int (n : Int)
  | callable (g : Unit → Int)

/-- A Python dict holding payload entries (`data` in the source). -/
abbrev PyDict := List (String × PyVal)

/-- A Python dict holding HTTP headers. -/
abbrev HDict := List (String × String)

/-- `APICall` dataclass (src/app.py lines 32-39). -/
structure APICall where
  name : String
  method : String
  url : String
  headers : Option HDict := none
  data : Option PyDict := none
  expected_status : Nat := 200

/-- The result dict built by `call_api` (src/app.py lines 145-153). -/
structure CallResult where
  name : String
  method : String
  url : String
  success : Bool
  status_code : Option Nat
  response_time_ms : ℚ
  error : Option String
  deriving DecidableEq

/-- A Python exception relevant to this program: `requests.exceptions.Timeout`
or any other `Exception` carrying its `str(e)` message. -/
inductive PyExc where
  | timeout
  | other (msg : String)
  deriving DecidableEq

/-- Environmental outcome of one HTTP request: the transport either times
out, raises some other exception, or completes with a status code. -/
inductive HttpOutcome where
  | timeout
  | exn (msg : String)
  | response (status : Nat)
  deriving DecidableEq

/-- One request on the session object: completes with a status code or
raises (`self.session.request(...)` / `self.session.post(...)`). -/
def http_request : HttpOutcome → Except PyExc Nat
  | .timeout => .error .timeout
  | .exn m => .error (.other m)
  | .response s => .ok s

/-- Python `round(x, 2)`: round to two decimal places. -/
def round2 (x : ℚ) : ℚ := ((round (x * 100) : ℤ) : ℚ) / 100

/-- `d.get(k)` on an association-list dict. -/
def dict_get (d : PyDict) (k : String) : Option PyVal :=
  (d.find? (fun p => p.1 = k)).map (fun p => p.2)

/-- Python `callable(v)` on an optional dict entry. -/
def py_callable : Option PyVal → Bool
  | some (.callable _) => true
  | _ => false

/-- `\x7b**d, k: v\x7d`: rebuild the dict with key `k` bound to `v`
(replaced in place when present, appended otherwise). -/
def dict_set (d : PyDict) (k : String) (v : PyVal) : PyDict :=
  if d.any (fun p => p.1 = k) then
    d.map (fun p => if p.1 = k then (k, v) else p)
  else d ++ [(k, v)]

/-- Whether the stored payload has a callable under key `"score"`. -/
def score_is_callable : Option PyDict → Bool
  | none => false
  | some d => py_callable (dict_get d "score")

/-- Dynamic payload resolution (src/app.py lines 156-159):
`data = api_call.data; if data and callable(data.get("score")):
data = \x7b**data, "score": data["score"]()\x7d`.
Returns the resolved dict together with the number of times the
generator was invoked. -/
def resolve_data : Option PyDict → Option PyDict × Nat
  | none => (none, 0)
  | some d =>
    if !d.isEmpty && py_callable (dict_get d "score") then
      match dict_get d "score" with
      | some (.callable g) => (some (dict_set d "score" (.int (g ()))), 1)
      | _ => (some d, 0)
    else (some d, 0)

/-- Everything observable about one execution of `call_api`: the result
dict, the body and headers actually sent, how many times the payload
generator ran, and the `APICall` record as the call leaves it. -/
structure ExecResult where
  result : CallResult
  sent_data : Option PyDict
  sent_headers : HDict
  gen_calls : Nat
  spec_after : APICall

/-- `LoadGenerator.call_api` (src/app.py lines 140-217).
`inject` is the opaque tracer propagation step that adds trace headers to
the mutable header map (`propagator.inject(span.context, headers)`);
`outcome` is the transport environment; `elapsedMs` is the measured
wall-clock duration in milliseconds at the measurement point.
Span tag reporting has no effect on the result and is elided. -/
def call_api (api_call : APICall) (inject : HDict → HDict)
    (outcome : HttpOutcome) (elapsedMs : ℚ) : Except PyExc ExecResult :=
  let base : CallResult :=
    { name := api_call.name, method := api_call.method, url := api_call.url,
      success := false, status_code := none, response_time_ms := 0,
      error := none }
  let p := resolve_data api_call.data
  let headers0 : HDict := match api_call.headers with
    | some h => h
    | none => []
  let headers := inject headers0
  match http_request outcome with
  | .ok status =>
    let r1 : CallResult :=
      { base with status_code := some status,
                  response_time_ms := round2 elapsedMs }
    let r2 : CallResult :=
      if status = api_call.expected_status then
        { r1 with success := true }
      else
        { r1 with error := some ("Unexpected status: " ++ toString status) }
    .ok { result := r2, sent_data := p.1, sent_headers := headers,
          gen_calls := p.2, spec_after := api_call }
  | .error .timeout =>
    .ok { result := { base with error := some "Timeout",
                                response_time_ms := round2 elapsedMs },
          sent_data := p.1, sent_headers := headers, gen_calls := p.2,
          spec_after := api_call }
  | .error (.other m) =>
    .ok { result := { base with error := some m,
                                response_time_ms := round2 elapsedMs },
          sent_data := p.1, sent_headers := headers, gen_calls := p.2,
          spec_after := api_call }

/-- `LoadGenerator.ensure_login` (src/app.py lines 93-138).
State passing: takes the current `logged_in` flag, returns the boolean
result together with the new flag.  On HTTP 200 the flag is set to true;
on any other status the flag is untouched; the bare `except Exception`
clause catches every exception (timeouts included) and also leaves the
flag untouched.  Span tags and logging are elided. -/
def ensure_login (logged_in : Bool) (lenv : HttpOutcome) :
    Except PyExc (Bool × Bool) :=
  match http_request lenv with
  | .ok status =>
    if status = 200 then .ok (true, true)
    else .ok (false, logged_in)
  | .error _e => .ok (false, logged_in)

/-- The transport environment of one call inside a cycle. -/
structure CallEnv where
  outcome : HttpOutcome
  elapsedMs : ℚ

/-- The body of the `for i, api_call in enumerate(self.api_calls)` loop in
`run_cycle` (src/app.py lines 231-241), with the `logged_in` flag passed
as state.  Outputs the accumulated results list, the trace of `logged_in`
values observed immediately after each call completes (including the
logout reset of lines 240-241), and the final flag.  The random inter-call
sleep affects no data and is elided.  An exception escaping `call_api`
would propagate, since `run_cycle` has no handler. -/
def run_calls (inject : HDict → HDict) (env : Nat → CallEnv) :
    Bool → Nat → List APICall →
    Except PyExc (List CallResult × List Bool × Bool)
  | st, _i, [] => .ok ([], [], st)
  | st, i, c :: rest =>
    match call_api c inject (env i).outcome (env i).elapsedMs with
    | .error e => .error e
    | .ok tr =>
      let st1 := if c.name = "logout" then false else st
      match run_calls inject env st1 (i + 1) rest with
      | .error e => .error e
      | .ok (rs, sts, stf) => .ok (tr.result :: rs, st1 :: sts, stf)

/-- Everything observable about one execution of `run_cycle`: the returned
results list, the instrumented trace of `logged_in` after each call, the
final `logged_in` flag, and whether `ensure_login` was invoked. -/
structure CycleOutput where
  results : List CallResult
  logged_in_trace : List Bool
  logged_in : Bool
  login_attempted : Bool
  deriving DecidableEq

/-- `LoadGenerator.run_cycle` (src/app.py lines 219-248).
`li` is `self.logged_in` at cycle start.  If it is false, `ensure_login`
runs and its boolean return value is discarded (line 226); then every
configured call runs in order.  Cycle timing and the logged success count
(lines 243-246) only feed logging and are elided. -/
def run_cycle (li : Bool) (calls : List APICall) (inject : HDict → HDict)
    (lenv : HttpOutcome) (env : Nat → CallEnv) : Except PyExc CycleOutput :=
  let login : Except PyExc (Bool × Bool) :=
    if li then .ok (false, li)
    else
      match ensure_login li lenv with
      | .ok (_ret, li2) => .ok (true, li2)
      | .error e => .error e
  match login with
  | .error e => .error e
  | .ok (attempted, li1) =>
    match run_calls inject env li1 0 calls with
    | .error e => .error e
    | .ok (rs, sts, stf) =>
      .ok { results := rs, logged_in_trace := sts, logged_in := stf,
            login_attempted := attempted }

/-- The fixed call list `self.api_calls` (src/app.py lines 52-89),
parameterised by the base URL and by the score generator standing for
`lambda: random.randint(0, 1500)`. -/
def api_calls (base_url : String) (score_gen : Unit → Int) : List APICall :=
  [ { name := "session_check", method := "GET",
      url := base_url ++ "/api/session/me" },
    { name := "rankings_top", method := "GET",
      url := base_url ++ "/rankings/top" },
    { name := "rankings_top_limit", method := "GET",
      url := base_url ++ "/rankings/top?limit=5" },
    { name := "score_submit", method := "POST",
      url := base_url ++ "/api/score",
      headers := some [("Content-Type", "application/json")],
      data := some [("score", PyVal.callable score_gen)],
      expected_status := 200 },
    { name := "logout", method := "GET",
      url := base_url ++ "/api/auth/logout", expected_status := 200 } ]

/-! ### Helper lemmas -/

/-- Normal form of `call_api` on the timeout branch. -/
theorem call_api_timeout_eq (c : APICall) (inj : HDict → HDict) (e : ℚ) :
    call_api c inj .timeout e = Except.ok
      { result := { name := c.name, method := c.method, url := c.url,
                    success := false, status_code := none,
                    response_time_ms := round2 e, error := some "Timeout" },
        sent_data := (resolve_data c.data).1,
        sent_headers := inj (match c.headers with | some h => h | none => []),
        gen_calls := (resolve_data c.data).2,
        spec_after := c } := rfl

/-- Normal form of `call_api` on the generic exception branch. -/
theorem call_api_exn_eq (c : APICall) (inj : HDict → HDict) (e : ℚ)
    (m : String) :
    call_api c inj (.exn m) e = Except.ok
      { result := { name := c.name, method := c.method, url := c.url,
                    success := false, status_code := none,
                    response_time_ms := round2 e, error := some m },
        sent_data := (resolve_data c.data).1,
        sent_headers := inj (match c.headers with | some h => h | none => []),
        gen_calls := (resolve_data c.data).2,
        spec_after := c } := rfl

/-- Normal form of `call_api` on the completed-request branch. -/
theorem call_api_response_eq (c : APICall) (inj : HDict → HDict) (e : ℚ)
    (s : Nat) :
    call_api c inj (.response s) e = Except.ok
      { result :=
          if s = c.expected_status then
            { name := c.name, method := c.method, url := c.url,
              success := true, status_code := some s,
              response_time_ms := round2 e, error := none }
          else
            { name := c.name, method := c.method, url := c.url,
              success := false, status_code := some s,
              response_time_ms := round2 e,
              error := some ("Unexpected status: " ++ toString s) },
        sent_data := (resolve_data c.data).1,
        sent_headers := inj (match c.headers with | some h => h | none => []),
        gen_calls := (resolve_data c.data).2,
        spec_after := c } := by
  show call_api c inj (.response s) e = _
  unfold call_api http_request
  by_cases hs : s = c.expected_status <;> simp [hs]

/-- `call_api` always produces a value. -/
theorem call_api_isOk (c : APICall) (inj : HDict → HDict)
    (o : HttpOutcome) (e : ℚ) :
    ∃ tr, call_api c inj o e = Except.ok tr := by
  cases o with
  | timeout => exact ⟨_, call_api_timeout_eq c inj e⟩
  | exn m => exact ⟨_, call_api_exn_eq c inj e m⟩
  | response s => exact ⟨_, call_api_response_eq c inj e s⟩

/-- The identifying fields of the result are copied from the spec. -/
theorem call_api_result_fields (c : APICall) (inj : HDict → HDict)
    (o : HttpOutcome) (e : ℚ) (tr : ExecResult)
    (h : call_api c inj o e = Except.ok tr) :
    tr.result.name = c.name ∧ tr.result.method = c.method ∧
      tr.result.url = c.url := by
  cases o with
  | timeout =>
    rw [call_api_timeout_eq] at h
    cases h
    exact ⟨rfl, rfl, rfl⟩
  | exn m =>
    rw [call_api_exn_eq] at h
    cases h
    exact ⟨rfl, rfl, rfl⟩
  | response s =>
    rw [call_api_response_eq] at h
    cases h
    by_cases hs : s = c.expected_status <;> simp [hs]

/-- `ensure_login` always produces a value. -/
theorem ensure_login_isOk (li : Bool) (lenv : HttpOutcome) :
    ∃ p, ensure_login li lenv = Except.ok p := by
  cases lenv with
  | timeout => exact ⟨_, rfl⟩
  | exn m => exact ⟨_, rfl⟩
  | response s =>
    unfold ensure_login http_request
    by_cases hs : s = 200 <;> simp [hs]

/-- The per-call loop always produces a value. -/
theorem run_calls_ok (inj : HDict → HDict) (env : Nat → CallEnv) :
    ∀ (l : List APICall) (st : Bool) (i : Nat),
      ∃ r, run_calls inj env st i l = Except.ok r := by
  intro l
  induction l with
  | nil => intro st i; exact ⟨([], [], st), rfl⟩
  | cons c rest ih =>
    intro st i
    obtain ⟨tr, htr⟩ := call_api_isOk c inj (env i).outcome (env i).elapsedMs
    by_cases hn : c.name = "logout"
    · obtain ⟨⟨rs, sts, stf⟩, hr⟩ := ih false (i + 1)
      exact ⟨(tr.result :: rs, false :: sts, stf),
        by simp [run_calls, htr, hn, hr]⟩
    · obtain ⟨⟨rs, sts, stf⟩, hr⟩ := ih st (i + 1)
      exact ⟨(tr.result :: rs, st :: sts, stf),
        by simp [run_calls, htr, hn, hr]⟩

/-- The results of the per-call loop line up with the call list:
same length, and the identifying fields are copied position by position;
the instrumented state trace also has one entry per call. -/
theorem run_calls_proj (inj : HDict → HDict) (env : Nat → CallEnv) :
    ∀ (l : List APICall) (st : Bool) (i : Nat) rs sts stf,
      run_calls inj env st i l = Except.ok (rs, sts, stf) →
      rs.map (fun r => r.name) = l.map (fun c => c.name) ∧
      rs.map (fun r => r.method) = l.map (fun c => c.method) ∧
      rs.map (fun r => r.url) = l.map (fun c => c.url) ∧
      rs.length = l.length ∧ sts.length = l.length := by
  intro l
  induction l with
  | nil =>
    intro st i rs sts stf h
    simp only [run_calls, Except.ok.injEq, Prod.mk.injEq] at h
    obtain ⟨h1, h2, _h3⟩ := h
    subst h1; subst h2
    simp
  | cons c rest ih =>
    intro st i rs sts stf h
    obtain ⟨tr, htr⟩ := call_api_isOk c inj (env i).outcome (env i).elapsedMs
    simp only [run_calls, htr] at h
    cases hrec : run_calls inj env
        (if c.name = "logout" then false else st) (i + 1) rest with
    | error e => rw [hrec] at h; cases h
    | ok r =>
      obtain ⟨rs2, sts2, stf2⟩ := r
      rw [hrec] at h
      simp only [Except.ok.injEq, Prod.mk.injEq] at h
      obtain ⟨h1, h2, _h3⟩ := h
      subst h1; subst h2
      obtain ⟨f1, f2, f3⟩ :=
        call_api_result_fields c inj (env i).outcome (env i).elapsedMs tr htr
      obtain ⟨m1, m2, m3, m4, m5⟩ := ih _ _ _ _ _ hrec
      simp [f1, f2, f3, m1, m2, m3, m4, m5]

/-- The results list computed by the per-call loop does not depend on the
`logged_in` state the loop starts from. -/
theorem run_calls_results_indep (inj : HDict → HDict) (env : Nat → CallEnv) :
    ∀ (l : List APICall) (st st2 : Bool) (i : Nat) r r2,
      run_calls inj env st i l = Except.ok r →
      run_calls inj env st2 i l = Except.ok r2 → r2.1 = r.1 := by
  intro l
  induction l with
  | nil =>
    intro st st2 i r r2 h h2
    simp only [run_calls, Except.ok.injEq] at h h2
    rw [← h, ← h2]
  | cons c rest ih =>
    intro st st2 i r r2 h h2
    obtain ⟨tr, htr⟩ := call_api_isOk c inj (env i).outcome (env i).elapsedMs
    simp only [run_calls, htr] at h h2
    cases hrec : run_calls inj env
        (if c.name = "logout" then false else st) (i + 1) rest with
    | error e => rw [hrec] at h; cases h
    | ok ra =>
      cases hrec2 : run_calls inj env
          (if c.name = "logout" then false else st2) (i + 1) rest with
      | error e => rw [hrec2] at h2; cases h2
      | ok rb =>
        obtain ⟨rsa, stsa, stfa⟩ := ra
        obtain ⟨rsb, stsb, stfb⟩ := rb
        rw [hrec] at h
        rw [hrec2] at h2
        simp only [Except.ok.injEq] at h h2
        rw [← h, ← h2]
        have := ih _ _ _ _ _ hrec hrec2
        simp only at this
        simp [this]

/-- Once the `logged_in` state is false, the per-call loop keeps it false:
every entry of the state trace is false and so is the final state
(nothing inside the loop ever sets the flag). -/
theorem run_calls_from_false (inj : HDict → HDict) (env : Nat → CallEnv) :
    ∀ (l : List APICall) (i : Nat) rs sts stf,
      run_calls inj env false i l = Except.ok (rs, sts, stf) →
      sts.all (fun b => !b) = true ∧ stf = false := by
  intro l
  induction l with
  | nil =>
    intro i rs sts stf h
    simp only [run_calls, Except.ok.injEq, Prod.mk.injEq] at h
    obtain ⟨_h1, h2, h3⟩ := h
    subst h2
    simp [h3.symm]
  | cons c rest ih =>
    intro i rs sts stf h
    obtain ⟨tr, htr⟩ := call_api_isOk c inj (env i).outcome (env i).elapsedMs
    simp only [run_calls, htr, ite_self] at h
    cases hrec : run_calls inj env false (i + 1) rest with
    | error e => rw [hrec] at h; cases h
    | ok r =>
      obtain ⟨rs2, sts2, stf2⟩ := r
      rw [hrec] at h
      simp only [Except.ok.injEq, Prod.mk.injEq] at h
      obtain ⟨_h1, h2, h3⟩ := h
      subst h2
      obtain ⟨a1, a2⟩ := ih _ _ _ _ hrec
      simp [a1, h3.symm, a2]

/-- From the call that carries the logout name onwards, the `logged_in`
state trace is identically false, and the loop ends with the flag false. -/
theorem run_calls_logout_suffix (inj : HDict → HDict) (env : Nat → CallEnv)
    (c : APICall) (l2 : List APICall) (hc : c.name = "logout") :
    ∀ (l1 : List APICall) (st : Bool) (i : Nat) rs sts stf,
      run_calls inj env st i (l1 ++ c :: l2) = Except.ok (rs, sts, stf) →
      ((sts.drop l1.length).all (fun b => !b) = true ∧ stf = false) := by
  intro l1
  induction l1 with
  | nil =>
    intro st i rs sts stf h
    rw [List.nil_append] at h
    obtain ⟨tr, htr⟩ := call_api_isOk c inj (env i).outcome (env i).elapsedMs
    simp only [run_calls, htr, hc, if_pos] at h
    cases hrec : run_calls inj env false (i + 1) l2 with
    | error e => rw [hrec] at h; cases h
    | ok r =>
      obtain ⟨rs2, sts2, stf2⟩ := r
      rw [hrec] at h
      simp only [Except.ok.injEq, Prod.mk.injEq] at h
      obtain ⟨_h1, h2, h3⟩ := h
      subst h2
      obtain ⟨a1, a2⟩ := run_calls_from_false inj env l2 _ _ _ _ hrec
      simp [a1, h3.symm, a2]
  | cons a l1x ih =>
    intro st i rs sts stf h
    rw [List.cons_append] at h
    obtain ⟨tr, htr⟩ := call_api_isOk a inj (env i).outcome (env i).elapsedMs
    simp only [run_calls, htr] at h
    cases hrec : run_calls inj env
        (if a.name = "logout" then false else st) (i + 1) (l1x ++ c :: l2) with
    | error e => rw [hrec] at h; cases h
    | ok r =>
      obtain ⟨rs2, sts2, stf2⟩ := r
      rw [hrec] at h
      simp only [Except.ok.injEq, Prod.mk.injEq] at h
      obtain ⟨_h1, h2, h3⟩ := h
      subst h2
      obtain ⟨a1, a2⟩ := ih _ _ _ _ _ hrec
      simpa [h3.symm, a2] using a1

/-- Inversion for `run_cycle`: a normally returning cycle attempted a
login exactly when the flag was false at cycle start, and its results,
trace and final flag come from one run of the per-call loop started at
index 0 in some state. -/
theorem run_cycle_inv (li : Bool) (calls : List APICall)
    (inj : HDict → HDict) (lenv : HttpOutcome) (env : Nat → CallEnv)
    (out : CycleOutput) (h : run_cycle li calls inj lenv env = Except.ok out) :
    out.login_attempted = !li ∧
      ∃ li1, run_calls inj env li1 0 calls =
        Except.ok (out.results, out.logged_in_trace, out.logged_in) := by
  obtain ⟨⟨ret, li2⟩, hlog⟩ := ensure_login_isOk li lenv
  cases li with
  | true =>
    simp only [run_cycle, if_pos] at h
    cases hrec : run_calls inj env true 0 calls with
    | error e => rw [hrec] at h; cases h
    | ok r =>
      obtain ⟨rs, sts, stf⟩ := r
      rw [hrec] at h
      simp only [Except.ok.injEq] at h
      subst h
      exact ⟨rfl, true, hrec⟩
  | false =>
    simp only [run_cycle, if_neg, Bool.false_eq_true, not_false_iff,
      hlog] at h
    cases hrec : run_calls inj env li2 0 calls with
    | error e => rw [hrec] at h; cases h
    | ok r =>
      obtain ⟨rs, sts, stf⟩ := r
      rw [hrec] at h
      simp only [Except.ok.injEq] at h
      subst h
      exact ⟨rfl, li2, hrec⟩

/-! ### Claim theorems -/

/-- C1: for every `CallResult` returned by `call_api`, the three
conditions are pairwise equivalent: `success` is true, `error` is null,
and `status_code` is present and equals the expected status; hence
exactly one of (success with null error) or (failure with non-null error)
holds. -/
theorem call_api_success_error_status_chain (c : APICall)
    (inj : HDict → HDict) (o : HttpOutcome) (e : ℚ) (tr : ExecResult)
    (h : call_api c inj o e = Except.ok tr) :
    (tr.result.success = true ↔ tr.result.error = none) ∧
    (tr.result.error = none ↔
      tr.result.status_code = some c.expected_status) := by
  cases o with
  | timeout => rw [call_api_timeout_eq] at h; cases h; simp
  | exn m => rw [call_api_exn_eq] at h; cases h; simp
  | response s =>
    rw [call_api_response_eq] at h
    cases h
    by_cases hs : s = c.expected_status <;> simp [hs]

/-- Witness for C1: a completed `GET /rankings/top` with status 200 yields
success, no error, and the expected status code. -/
theorem call_api_success_error_status_chain_witness :
    (call_api
        { name := "rankings_top", method := "GET",
          url := "http://frontend-svc/rankings/top" } id
        (HttpOutcome.response 200) 0 = Except.ok
      { result := { name := "rankings_top", method := "GET",
                    url := "http://frontend-svc/rankings/top",
                    success := true, status_code := some 200,
                    response_time_ms := round2 0, error := none },
        sent_data := none, sent_headers := [], gen_calls := 0,
        spec_after := { name := "rankings_top", method := "GET",
                        url := "http://frontend-svc/rankings/top" } }) ∧
    (((true : Bool) = true ↔ (none : Option String) = none) ∧
     ((none : Option String) = none ↔ some 200 = some 200)) :=
  ⟨rfl, call_api_success_error_status_chain
    { name := "rankings_top", method := "GET",
      url := "http://frontend-svc/rankings/top" } id
    (HttpOutcome.response 200) 0 _ rfl⟩

/-- C2: classification follows the source priority order: a transport
timeout gives error "Timeout" with no status code; any other exception
gives the exception message with no status code; a completed request is
a success exactly when the status matches the expected one, and otherwise
carries an unexpected-status error message. -/
theorem call_api_classification_priority (c : APICall)
    (inj : HDict → HDict) (o : HttpOutcome) (e : ℚ) (tr : ExecResult)
    (h : call_api c inj o e = Except.ok tr) :
    (match o with
     | HttpOutcome.timeout =>
         tr.result.error = some "Timeout" ∧ tr.result.success = false ∧
           tr.result.status_code = none
     | HttpOutcome.exn m =>
         tr.result.error = some m ∧ tr.result.success = false ∧
           tr.result.status_code = none
     | HttpOutcome.response s =>
         (s = c.expected_status →
            tr.result.success = true ∧ tr.result.error = none) ∧
         (s ≠ c.expected_status →
            tr.result.success = false ∧
              tr.result.error =
                some ("Unexpected status: " ++ toString s))) := by
  cases o with
  | timeout => rw [call_api_timeout_eq] at h; cases h; exact ⟨rfl, rfl, rfl⟩
  | exn m => rw [call_api_exn_eq] at h; cases h; exact ⟨rfl, rfl, rfl⟩
  | response s =>
    rw [call_api_response_eq] at h
    cases h
    constructor
    · intro hs; simp [hs]
    · intro hs; simp [hs]

/-- Witness for C2: a timed-out `POST /api/score` is classified as error
"Timeout", failure, no status code. -/
theorem call_api_classification_priority_witness :
    (call_api
        { name := "score_submit", method := "POST",
          url := "http://frontend-svc/api/score" } id HttpOutcome.timeout
        5000 = Except.ok
      { result := { name := "score_submit", method := "POST",
                    url := "http://frontend-svc/api/score",
                    success := false, status_code := none,
                    response_time_ms := round2 5000,
                    error := some "Timeout" },
        sent_data := none, sent_headers := [], gen_calls := 0,
        spec_after := { name := "score_submit", method := "POST",
                        url := "http://frontend-svc/api/score" } }) ∧
    (some "Timeout" = some "Timeout" ∧ (false : Bool) = false ∧
      (none : Option Nat) = none) :=
  ⟨rfl, call_api_classification_priority
    { name := "score_submit", method := "POST",
      url := "http://frontend-svc/api/score" } id HttpOutcome.timeout
    5000 _ rfl⟩

/-- C3: for every input, `call_api` returns a `CallResult` and never
raises: no failure mode escapes it, and consequently nothing from an
individual HTTP call unwinds past `run_cycle` either. -/
theorem call_executor_never_raises (c : APICall) (inj : HDict → HDict)
    (o : HttpOutcome) (e : ℚ) (li : Bool) (calls : List APICall)
    (lenv : HttpOutcome) (env : Nat → CallEnv) :
    (∃ tr, call_api c inj o e = Except.ok tr) ∧
    (∃ out, run_cycle li calls inj lenv env = Except.ok out) := by
  refine ⟨call_api_isOk c inj o e, ?_⟩
  obtain ⟨⟨ret, li2⟩, hlog⟩ := ensure_login_isOk li lenv
  cases li with
  | true =>
    obtain ⟨⟨rs, sts, stf⟩, hr⟩ := run_calls_ok inj env calls true 0
    exact ⟨{ results := rs, logged_in_trace := sts, logged_in := stf,
             login_attempted := false }, by simp [run_cycle, hr]⟩
  | false =>
    obtain ⟨⟨rs, sts, stf⟩, hr⟩ := run_calls_ok inj env calls li2 0
    exact ⟨{ results := rs, logged_in_trace := sts, logged_in := stf,
             login_attempted := true }, by simp [run_cycle, hlog, hr]⟩

/-- Two-decimal rounding preserves nonnegativity. -/
theorem round2_nonneg (x : ℚ) (hx : 0 ≤ x) : 0 ≤ round2 x := by
  unfold round2
  apply div_nonneg _ (by norm_num)
  have h100 : (0 : ℚ) ≤ x * 100 := by positivity
  rw [round_eq]
  exact_mod_cast Int.floor_nonneg.mpr (by linarith)

/-- C8: on every branch, including timeout and exception, the response
time recorded in the result is the rounded measured elapsed time, never
the zero placeholder it was initialised with, and it is nonnegative
whenever the measured elapsed time is. -/
theorem call_api_response_time_measured (c : APICall)
    (inj : HDict → HDict) (o : HttpOutcome) (e : ℚ) (tr : ExecResult)
    (he : 0 ≤ e) (h : call_api c inj o e = Except.ok tr) :
    tr.result.response_time_ms = round2 e ∧
      0 ≤ tr.result.response_time_ms := by
  have hr : 0 ≤ round2 e := round2_nonneg e he
  cases o with
  | timeout => rw [call_api_timeout_eq] at h; cases h; exact ⟨rfl, hr⟩
  | exn m => rw [call_api_exn_eq] at h; cases h; exact ⟨rfl, hr⟩
  | response s =>
    rw [call_api_response_eq] at h
    cases h
    by_cases hs : s = c.expected_status <;> simp [hs, hr]

/-- Witness for C8: a call that times out after about five seconds still
records the measured elapsed time. -/
theorem call_api_response_time_measured_witness :
    ((0 : ℚ) ≤ 5000) ∧
    (round2 5000 = round2 5000 ∧ (0 : ℚ) ≤ round2 5000) :=
  ⟨by norm_num,
   call_api_response_time_measured
     { name := "score_submit", method := "POST",
       url := "http://frontend-svc/api/score" } id HttpOutcome.timeout
     5000 _ (by norm_num) rfl⟩

/-- The payload generator runs exactly once when the stored payload has a
callable score entry, and zero times otherwise. -/
theorem resolve_data_gen_count (d : Option PyDict) :
    (resolve_data d).2 = if score_is_callable d then 1 else 0 := by
  cases d with
  | none => rfl
  | some l =>
    cases hcall : py_callable (dict_get l "score") with
    | false => simp [resolve_data, score_is_callable, hcall]
    | true =>
      have hne : l.isEmpty = false := by
        cases l with
        | nil => simp [dict_get, py_callable] at hcall
        | cons a t => rfl
      cases hg : dict_get l "score" with
      | none => rw [hg] at hcall; simp [py_callable] at hcall
      | some v =>
        cases v with
        | int n => rw [hg] at hcall; simp [py_callable] at hcall
        | callable g =>
          simp [resolve_data, score_is_callable, hcall, hne, hg, py_callable]

/-- C9: every execution of `call_api` invokes the dynamic payload
generator exactly once when one is present (and never otherwise), and
leaves the `APICall` record itself unchanged: the stored headers mapping
and the stored payload, generator included, are the same after the call
as before. -/
theorem call_api_payload_once_and_frame (c : APICall)
    (inj : HDict → HDict) (o : HttpOutcome) (e : ℚ) (tr : ExecResult)
    (h : call_api c inj o e = Except.ok tr) :
    tr.gen_calls = (if score_is_callable c.data then 1 else 0) ∧
    tr.spec_after = c ∧ tr.spec_after.headers = c.headers ∧
    tr.spec_after.data = c.data := by
  have hg : tr.gen_calls = (resolve_data c.data).2 ∧ tr.spec_after = c := by
    cases o with
    | timeout => rw [call_api_timeout_eq] at h; cases h; exact ⟨rfl, rfl⟩
    | exn m => rw [call_api_exn_eq] at h; cases h; exact ⟨rfl, rfl⟩
    | response s => rw [call_api_response_eq] at h; cases h; exact ⟨rfl, rfl⟩
  refine ⟨?_, hg.2, by rw [hg.2], by rw [hg.2]⟩
  rw [hg.1, resolve_data_gen_count]

/-- Witness for C9: the score-submit call with a callable payload invokes
its generator exactly once. -/
theorem call_api_payload_once_and_frame_witness :
    score_is_callable
        (some [("score", PyVal.callable (fun _ => 7))]) = true ∧
    (1 = if score_is_callable
        (some [("score", PyVal.callable (fun _ => 7))]) then 1 else 0) :=
  ⟨rfl,
   (call_api_payload_once_and_frame
     { name := "score_submit", method := "POST",
       url := "http://frontend-svc/api/score",
       headers := some [("Content-Type", "application/json")],
       data := some [("score", PyVal.callable (fun _ => 7))] } id
     (HttpOutcome.response 200) 0 _ rfl).1⟩

/-- C4: a normally returning `run_cycle` yields exactly one result per
configured call, in the original list order (identifying fields copied
position by position), and this holds for every transport environment,
so individual call failures never short-circuit the cycle. -/
theorem run_cycle_one_result_per_spec (li : Bool) (calls : List APICall)
    (inj : HDict → HDict) (lenv : HttpOutcome) (env : Nat → CallEnv)
    (out : CycleOutput)
    (h : run_cycle li calls inj lenv env = Except.ok out) :
    out.results.length = calls.length ∧
    out.results.map (fun r => r.name) = calls.map (fun c => c.name) ∧
    out.results.map (fun r => r.method) = calls.map (fun c => c.method) ∧
    out.results.map (fun r => r.url) = calls.map (fun c => c.url) := by
  obtain ⟨_, li1, hrc⟩ := run_cycle_inv li calls inj lenv env out h
  obtain ⟨m1, m2, m3, m4, _⟩ := run_calls_proj inj env calls li1 0 _ _ _ hrc
  exact ⟨m4, m1, m2, m3⟩

/-- Witness for C4: a two-call cycle whose first call times out still
produces both results, in order. -/
theorem run_cycle_one_result_per_spec_witness :
    (run_cycle true
        [ { name := "a", method := "GET", url := "u1" },
          { name := "b", method := "POST", url := "u2" } ] id
        HttpOutcome.timeout
        (fun i => if i = 0 then
            { outcome := HttpOutcome.timeout, elapsedMs := 0 }
          else { outcome := HttpOutcome.response 200, elapsedMs := 0 }) =
      Except.ok
        { results :=
            [ { name := "a", method := "GET", url := "u1",
                success := false, status_code := none,
                response_time_ms := round2 0, error := some "Timeout" },
              { name := "b", method := "POST", url := "u2",
                success := true, status_code := some 200,
                response_time_ms := round2 0, error := none } ],
          logged_in_trace := [true, true], logged_in := true,
          login_attempted := false }) ∧
    ((2 : Nat) = 2 ∧ (["a", "b"] : List String) = ["a", "b"] ∧
     (["GET", "POST"] : List String) = ["GET", "POST"] ∧
     (["u1", "u2"] : List String) = ["u1", "u2"]) :=
  ⟨rfl, run_cycle_one_result_per_spec true
    [ { name := "a", method := "GET", url := "u1" },
      { name := "b", method := "POST", url := "u2" } ] id
    HttpOutcome.timeout
    (fun i => if i = 0 then
        { outcome := HttpOutcome.timeout, elapsedMs := 0 }
      else { outcome := HttpOutcome.response 200, elapsedMs := 0 }) _ rfl⟩

/-- C5: inside a cycle, immediately after any call whose name is the
logout identifier executes, the `logged_in` flag is false, whether or not
the call succeeded, and it stays false through every later call of the
cycle and at cycle end. -/
theorem run_cycle_logout_clears_session (li : Bool)
    (l1 l2 : List APICall) (c : APICall) (inj : HDict → HDict)
    (lenv : HttpOutcome) (env : Nat → CallEnv) (out : CycleOutput)
    (hc : c.name = "logout")
    (h : run_cycle li (l1 ++ c :: l2) inj lenv env = Except.ok out) :
    (out.logged_in_trace.drop l1.length).all (fun b => !b) = true ∧
      out.logged_in = false := by
  obtain ⟨_, li1, hrc⟩ := run_cycle_inv li (l1 ++ c :: l2) inj lenv env out h
  exact run_calls_logout_suffix inj env c l2 hc l1 li1 0 _ _ _ hrc

/-- Witness for C5: a cycle that starts logged in and whose first call is
the logout call shows the flag false from that call onwards, even with a
following call. -/
theorem run_cycle_logout_clears_session_witness :
    ("logout" = "logout") ∧
    (run_cycle true
        [ { name := "logout", method := "GET",
            url := "http://frontend-svc/api/auth/logout" },
          { name := "b", method := "GET", url := "u2" } ] id
        HttpOutcome.timeout
        (fun _ => { outcome := HttpOutcome.response 200,
                    elapsedMs := 0 }) =
      Except.ok
        { results :=
            [ { name := "logout", method := "GET",
                url := "http://frontend-svc/api/auth/logout",
                success := true, status_code := some 200,
                response_time_ms := round2 0, error := none },
              { name := "b", method := "GET", url := "u2",
                success := true, status_code := some 200,
                response_time_ms := round2 0, error := none } ],
          logged_in_trace := [false, false], logged_in := false,
          login_attempted := false }) ∧
    (([false, false].drop 0).all (fun b => !b) = true ∧ false = false) :=
  ⟨rfl, rfl, run_cycle_logout_clears_session true []
    [ { name := "b", method := "GET", url := "u2" } ]
    { name := "logout", method := "GET",
      url := "http://frontend-svc/api/auth/logout" } id
    HttpOutcome.timeout
    (fun _ => { outcome := HttpOutcome.response 200, elapsedMs := 0 })
    _ rfl rfl⟩

/-- C6 counterexample: with the flag previously true, a login attempt
that comes back 401 returns false but leaves the flag true — the code
never resets the flag on failure, so "leaves loggedIn equal to false
regardless of its prior value" fails at this input. -/
theorem ensure_login_failure_keeps_prior_flag :
    ensure_login true (HttpOutcome.response 401) =
      Except.ok (false, true) ∧ true ≠ false :=
  ⟨rfl, by decide⟩

/-- C6 (amended): `ensure_login` returns true exactly on HTTP 200, in
which case it sets the flag true; on any other status or exception it
returns false and leaves the flag unchanged (hence still false in every
reachable invocation, which occur only when the flag is false); and it
never propagates an exception. -/
theorem ensure_login_contract (li : Bool) (lenv lenv2 : HttpOutcome)
    (r li2 : Bool) (h : ensure_login li lenv = Except.ok (r, li2)) :
    (r = true ↔ lenv = HttpOutcome.response 200) ∧
    (lenv = HttpOutcome.response 200 → li2 = true) ∧
    (lenv ≠ HttpOutcome.response 200 → r = false ∧ li2 = li) ∧
    (ensure_login li lenv2).isOk = true := by
  obtain ⟨p, hp⟩ := ensure_login_isOk li lenv2
  have hok : (ensure_login li lenv2).isOk = true := by rw [hp]; rfl
  cases lenv with
  | timeout =>
    simp only [ensure_login, http_request, Except.ok.injEq,
      Prod.mk.injEq] at h
    obtain ⟨h1, h2⟩ := h
    subst h1; subst h2
    refine ⟨by simp, ?_, fun _ => ⟨rfl, rfl⟩, hok⟩
    intro hx
    cases hx
  | exn m =>
    simp only [ensure_login, http_request, Except.ok.injEq,
      Prod.mk.injEq] at h
    obtain ⟨h1, h2⟩ := h
    subst h1; subst h2
    refine ⟨by simp, ?_, fun _ => ⟨rfl, rfl⟩, hok⟩
    intro hx
    cases hx
  | response s =>
    by_cases hs : s = 200
    · subst hs
      simp only [ensure_login, http_request, if_pos, Except.ok.injEq,
        Prod.mk.injEq] at h
      obtain ⟨h1, h2⟩ := h
      subst h1; subst h2
      exact ⟨by simp, fun _ => rfl, fun hx => absurd rfl hx, hok⟩
    · have hform : ensure_login li (HttpOutcome.response s) =
          Except.ok (false, li) := by
        simp [ensure_login, http_request, hs]
      rw [hform] at h
      simp only [Except.ok.injEq, Prod.mk.injEq] at h
      obtain ⟨h1, h2⟩ := h
      subst h1; subst h2
      refine ⟨by simp [hs], ?_, fun _ => ⟨rfl, rfl⟩, hok⟩
      intro hx
      injection hx with h3
      exact absurd h3 hs

/-- Witness for C6 (amended): a 401 login from a logged-out state returns
false and keeps the flag false; a timed-out login raises nothing. -/
theorem ensure_login_contract_witness :
    (ensure_login false (HttpOutcome.response 401) =
      Except.ok (false, false)) ∧
    ((false = true ↔ HttpOutcome.response 401 = HttpOutcome.response 200) ∧
     (HttpOutcome.response 401 = HttpOutcome.response 200 →
        false = true) ∧
     (HttpOutcome.response 401 ≠ HttpOutcome.response 200 →
        false = false ∧ false = false) ∧
     (ensure_login false HttpOutcome.timeout).isOk = true) :=
  ⟨rfl, ensure_login_contract false (HttpOutcome.response 401)
    HttpOutcome.timeout false false rfl⟩

/-- C7: a cycle attempts a login exactly when the flag is false at cycle
start, and the cycle executes all configured calls whatever the login
outcome: the results do not depend on the login environment at all. -/
theorem run_cycle_login_gating (li : Bool) (calls : List APICall)
    (inj : HDict → HDict) (lenv lenv2 : HttpOutcome) (env : Nat → CallEnv)
    (out out2 : CycleOutput)
    (h : run_cycle li calls inj lenv env = Except.ok out)
    (h2 : run_cycle li calls inj lenv2 env = Except.ok out2) :
    out.login_attempted = !li ∧
    out.results.length = calls.length ∧
    out2.results = out.results := by
  obtain ⟨ha, li1, hrc⟩ := run_cycle_inv li calls inj lenv env out h
  obtain ⟨_, li1b, hrc2⟩ := run_cycle_inv li calls inj lenv2 env out2 h2
  obtain ⟨_, _, _, m4, _⟩ := run_calls_proj inj env calls li1 0 _ _ _ hrc
  exact ⟨ha, m4,
    run_calls_results_indep inj env calls li1 li1b 0 _ _ hrc hrc2⟩

/-- Witness for C7: starting logged out, a successful login and a
timed-out login produce identical call results; the login was attempted
in both cases. -/
theorem run_cycle_login_gating_witness :
    (run_cycle false [ { name := "b", method := "GET", url := "u2" } ] id
        (HttpOutcome.response 200)
        (fun _ => { outcome := HttpOutcome.response 200,
                    elapsedMs := 0 }) =
      Except.ok
        { results := [ { name := "b", method := "GET", url := "u2",
                         success := true, status_code := some 200,
                         response_time_ms := round2 0, error := none } ],
          logged_in_trace := [true], logged_in := true,
          login_attempted := true }) ∧
    (run_cycle false [ { name := "b", method := "GET", url := "u2" } ] id
        HttpOutcome.timeout
        (fun _ => { outcome := HttpOutcome.response 200,
                    elapsedMs := 0 }) =
      Except.ok
        { results := [ { name := "b", method := "GET", url := "u2",
                         success := true, status_code := some 200,
                         response_time_ms := round2 0, error := none } ],
          logged_in_trace := [false], logged_in := false,
          login_attempted := true }) ∧
    ((true : Bool) = !false ∧ (1 : Nat) = 1 ∧
     ([ { name := "b", method := "GET", url := "u2",
          success := true, status_code := some 200,
          response_time_ms := round2 0,
          error := none } ] : List CallResult) =
       [ { name := "b", method := "GET", url := "u2",
           success := true, status_code := some 200,
           response_time_ms := round2 0, error := none } ]) :=
  ⟨rfl, rfl, run_cycle_login_gating false
    [ { name := "b", method := "GET", url := "u2" } ] id
    (HttpOutcome.response 200) HttpOutcome.timeout
    (fun _ => { outcome := HttpOutcome.response 200, elapsedMs := 0 })
    _ _ rfl rfl⟩

/-- C10 (implicit): because the last entry of the configured call list is
named "logout", every normally returning cycle over that list ends with
`logged_in = false`; consequently the next cycle, started from that
state, always invokes `ensure_login` — re-authentication happens every
cycle after the first, not only after genuine session loss. -/
theorem run_cycle_api_calls_ends_logged_out (b : String)
    (g : Unit → Int) (li : Bool) (inj : HDict → HDict)
    (lenv lenv2 : HttpOutcome) (env env2 : Nat → CallEnv)
    (out out2 : CycleOutput)
    (h : run_cycle li (api_calls b g) inj lenv env = Except.ok out)
    (h2 : run_cycle out.logged_in (api_calls b g) inj lenv2 env2 =
      Except.ok out2) :
    out.logged_in = false ∧ out2.login_attempted = true := by
  have h5 : out.logged_in = false := by
    obtain ⟨_, li1, hrc⟩ :=
      run_cycle_inv li (api_calls b g) inj lenv env out h
    have hdecomp : api_calls b g =
        [ { name := "session_check", method := "GET",
            url := b ++ "/api/session/me" },
          { name := "rankings_top", method := "GET",
            url := b ++ "/rankings/top" },
          { name := "rankings_top_limit", method := "GET",
            url := b ++ "/rankings/top?limit=5" },
          { name := "score_submit", method := "POST",
            url := b ++ "/api/score",
            headers := some [("Content-Type", "application/json")],
            data := some [("score", PyVal.callable g)],
            expected_status := 200 } ] ++
          ({ name := "logout", method := "GET",
             url := b ++ "/api/auth/logout",
             expected_status := 200 } :: []) := rfl
    rw [hdecomp] at hrc
    exact (run_calls_logout_suffix inj env
      { name := "logout", method := "GET",
        url := b ++ "/api/auth/logout", expected_status := 200 } [] rfl
      [ { name := "session_check", method := "GET",
          url := b ++ "/api/session/me" },
        { name := "rankings_top", method := "GET",
          url := b ++ "/rankings/top" },
        { name := "rankings_top_limit", method := "GET",
          url := b ++ "/rankings/top?limit=5" },
        { name := "score_submit", method := "POST",
          url := b ++ "/api/score",
          headers := some [("Content-Type", "application/json")],
          data := some [("score", PyVal.callable g)],
          expected_status := 200 } ] li1 0 _ _ _ hrc).2
  rw [h5] at h2
  obtain ⟨ha2, _⟩ :=
    run_cycle_inv false (api_calls b g) inj lenv2 env2 out2 h2
  refine ⟨h5, ?_⟩
  rw [ha2]
  rfl

/-- Witness for C10: one full cycle over the configured list (all calls
returning 200) ends logged out, and the next cycle, run from that state,
attempts a login even though every one of its calls then times out. -/
theorem run_cycle_api_calls_ends_logged_out_witness :
    (run_cycle true (api_calls "" (fun _ => 7)) id HttpOutcome.timeout
        (fun _ => { outcome := HttpOutcome.response 200,
                    elapsedMs := 0 }) =
      Except.ok
        { results :=
            [ { name := "session_check", method := "GET",
                url := "/api/session/me", success := true,
                status_code := some 200, response_time_ms := round2 0,
                error := none },
              { name := "rankings_top", method := "GET",
                url := "/rankings/top", success := true,
                status_code := some 200, response_time_ms := round2 0,
                error := none },
              { name := "rankings_top_limit", method := "GET",
                url := "/rankings/top?limit=5", success := true,
                status_code := some 200, response_time_ms := round2 0,
                error := none },
              { name := "score_submit", method := "POST",
                url := "/api/score", success := true,
                status_code := some 200, response_time_ms := round2 0,
                error := none },
              { name := "logout", method := "GET",
                url := "/api/auth/logout", success := true,
                status_code := some 200, response_time_ms := round2 0,
                error := none } ],
          logged_in_trace := [true, true, true, true, false],
          logged_in := false, login_attempted := false }) ∧
    (run_cycle false (api_calls "" (fun _ => 7)) id
        (HttpOutcome.response 200)
        (fun _ => { outcome := HttpOutcome.timeout, elapsedMs := 0 }) =
      Except.ok
        { results :=
            [ { name := "session_check", method := "GET",
                url := "/api/session/me", success := false,
                status_code := none, response_time_ms := round2 0,
                error := some "Timeout" },
              { name := "rankings_top", method := "GET",
                url := "/rankings/top", success := false,
                status_code := none, response_time_ms := round2 0,
                error := some "Timeout" },
              { name := "rankings_top_limit", method := "GET",
                url := "/rankings/top?limit=5", success := false,
                status_code := none, response_time_ms := round2 0,
                error := some "Timeout" },
              { name := "score_submit", method := "POST",
                url := "/api/score", success := false,
                status_code := none, response_time_ms := round2 0,
                error := some "Timeout" },
              { name := "logout", method := "GET",
                url := "/api/auth/logout", success := false,
                status_code := none, response_time_ms := round2 0,
                error := some "Timeout" } ],
          logged_in_trace := [true, true, true, true, false],
          logged_in := false, login_attempted := true }) ∧
    (false = false ∧ true = true) :=
  ⟨rfl, rfl, run_cycle_api_calls_ends_logged_out "" (fun _ => 7) true id
    HttpOutcome.timeout (HttpOutcome.response 200)
    (fun _ => { outcome := HttpOutcome.response 200, elapsedMs := 0 })
    (fun _ => { outcome := HttpOutcome.timeout, elapsedMs := 0 })
    _ _ rfl rfl⟩
